import Mathlib

/-!
Shallow embedding of the column-metadata resolution core of
`src/server/dbt_core.py` (`new_get_columns_in_relation`, lines 37-60).

The Python function, installed as `get_columns_in_relation` on the BigQuery
adapter, does the following:

  - substitutes the literal string "None" for each absent component of
    `relation.path` (database, schema, identifier);
  - issues a single HTTP GET request
    `/macro?name=get_columns_in_relation&db=<db>&schema=<schema>&table=<table>`
    to the sidecar on localhost and reads the response body as text;
  - if the body is neither "SOURCE" nor "NOT_FOUND", parses it with
    `json.loads` and maps each element `column` to
    `BigQueryColumn(column[0], BigQueryColumn.translate_type(column[1]))`;
  - otherwise calls `self.connections.get_bq_table(...)` with the original
    (un-substituted) relation components followed by
    `self._get_dbt_columns_from_bq_table(...)`, returning `[]` when either
    raises `ValueError` or `google.cloud.exceptions.NotFound`.

External collaborators (the HTTP sidecar, the two BigQuery-backed methods and
`BigQueryColumn.translate_type`) are modelled as capabilities packaged in a
`SidecarEnv`; the resolver is a pure function of that environment which also
returns the ordered trace of collaborator calls it makes, so that claims about
call counts and call order can be stated.  Python exceptions are modelled with
`Except PyError`.
-/

/-- Exceptions the embedded code can raise or observe.  `jsonDecodeError`
models `json.JSONDecodeError` raised by `json.loads`; `valueError` and
`gcloudNotFound` model `ValueError` and `google.cloud.exceptions.NotFound`,
the two exception classes named in the `except` clause; `otherError` stands
for any other exception a collaborator may raise. -/
inductive PyError where
  | jsonDecodeError
  | typeError
  | indexError
  | keyError
  | attributeError
  | valueError
  | gcloudNotFound
  | otherError (msg : String)
deriving Repr, DecidableEq

/-- JSON values as produced by Python's `json.loads`.  Numbers keep their
source lexeme (the resolver never interprets numbers). -/
inductive JsonVal where
  | null
  | boolV (b : Bool)
  | num (lexeme : String)
  | str (s : String)
  | arr (items : List JsonVal)
  | obj (fields : List (String × JsonVal))

/-- Whitespace accepted between JSON tokens by Python's `json.loads`. -/
def isJsonWs (c : Char) : Bool :=
  c = ' ' || c = '\t' || c = '\n' || c = '\r'

/-- Drop leading JSON whitespace. -/
def skipWs : List Char → List Char
  | [] => []
  | c :: cs => if isJsonWs c then skipWs cs else c :: cs

/-- Numeric value of a hexadecimal digit, if any. -/
def hexDigitVal (c : Char) : Option Nat :=
  if '0' ≤ c ∧ c ≤ '9' then some (c.toNat - '0'.toNat)
  else if 'a' ≤ c ∧ c ≤ 'f' then some (c.toNat - 'a'.toNat + 10)
  else if 'A' ≤ c ∧ c ≤ 'F' then some (c.toNat - 'A'.toNat + 10)
  else none

/-- Body of a JSON string literal (the opening quote already consumed):
returns the decoded string and the remaining input.  Handles the JSON
escape sequences, including `\uXXXX`. -/
def parseStringAux : Nat → List Char → List Char → Option (String × List Char)
  | 0, _, _ => none
  | _ + 1, acc, '"' :: rest => some (String.mk acc.reverse, rest)
  | fuel + 1, acc, '\\' :: c :: rest =>
    match c with
    | '"' => parseStringAux fuel ('"' :: acc) rest
    | '\\' => parseStringAux fuel ('\\' :: acc) rest
    | '/' => parseStringAux fuel ('/' :: acc) rest
    | 'b' => parseStringAux fuel ('\x08' :: acc) rest
    | 'f' => parseStringAux fuel ('\x0c' :: acc) rest
    | 'n' => parseStringAux fuel ('\n' :: acc) rest
    | 'r' => parseStringAux fuel ('\r' :: acc) rest
    | 't' => parseStringAux fuel ('\t' :: acc) rest
    | 'u' =>
      match rest with
      | h1 :: h2 :: h3 :: h4 :: rest2 =>
        match hexDigitVal h1, hexDigitVal h2, hexDigitVal h3, hexDigitVal h4 with
        | some a, some b, some c2, some d =>
          parseStringAux fuel (Char.ofNat (((a * 16 + b) * 16 + c2) * 16 + d) :: acc) rest2
        | _, _, _, _ => none
      | _ => none
    | _ => none
  | fuel + 1, acc, c :: rest => parseStringAux fuel (c :: acc) rest
  | _ + 1, _, [] => none

/-- Longest prefix of decimal digits. -/
def takeDigits : List Char → List Char × List Char
  | [] => ([], [])
  | c :: cs =>
    if c.isDigit then
      let (ds, r) := takeDigits cs
      (c :: ds, r)
    else ([], c :: cs)

/-- Integer part of a JSON number: `0` or a nonzero digit followed by digits
(JSON forbids redundant leading zeros). -/
def parseIntPart : List Char → Option (List Char × List Char)
  | '0' :: cs => some (['0'], cs)
  | c :: cs =>
    if c.isDigit then
      let (ds, r) := takeDigits cs
      some (c :: ds, r)
    else none
  | [] => none

/-- Optional fractional part `.digits`. -/
def parseFrac : List Char → Option (List Char × List Char)
  | '.' :: cs =>
    match takeDigits cs with
    | ([], _) => none
    | (ds, r) => some ('.' :: ds, r)
  | cs => some ([], cs)

/-- Optional exponent part `[eE][+-]?digits`. -/
def parseExp : List Char → Option (List Char × List Char)
  | [] => some ([], [])
  | c :: cs =>
    if c = 'e' ∨ c = 'E' then
      match cs with
      | s :: cs2 =>
        if s = '+' ∨ s = '-' then
          match takeDigits cs2 with
          | ([], _) => none
          | (ds, r) => some (c :: s :: ds, r)
        else
          match takeDigits cs with
          | ([], _) => none
          | (ds, r) => some (c :: ds, r)
      | [] => none
    else some ([], c :: cs)

/-- JSON number; the lexeme is kept verbatim. -/
def parseNumber (cs : List Char) : Option (String × List Char) :=
  let (sign, cs1) :=
    match cs with
    | '-' :: rest => ((['-'] : List Char), rest)
    | _ => (([] : List Char), cs)
  match parseIntPart cs1 with
  | none => none
  | some (ip, cs2) =>
    match parseFrac cs2 with
    | none => none
    | some (fp, cs3) =>
      match parseExp cs3 with
      | none => none
      | some (ep, cs4) => some (String.mk (sign ++ ip ++ fp ++ ep), cs4)

mutual

/-- Recursive-descent JSON value parser (fuel-indexed for termination),
following the grammar accepted by Python's `json.loads`, including its
`NaN` / `Infinity` / `-Infinity` extensions. -/
def parseValue : Nat → List Char → Option (JsonVal × List Char)
  | 0, _ => none
  | fuel + 1, cs =>
    match skipWs cs with
    | [] => none
    | '"' :: rest =>
      match parseStringAux (rest.length + 1) [] rest with
      | some (s, r) => some (JsonVal.str s, r)
      | none => none
    | '[' :: rest =>
      match skipWs rest with
      | ']' :: r2 => some (JsonVal.arr [], r2)
      | _ =>
        match parseElems fuel rest with
        | some (xs, r2) => some (JsonVal.arr xs, r2)
        | none => none
    | '\x7b' :: rest =>
      match skipWs rest with
      | '\x7d' :: r2 => some (JsonVal.obj [], r2)
      | _ =>
        match parseMembers fuel rest with
        | some (fs, r2) => some (JsonVal.obj fs, r2)
        | none => none
    | 't' :: 'r' :: 'u' :: 'e' :: rest => some (JsonVal.boolV true, rest)
    | 'f' :: 'a' :: 'l' :: 's' :: 'e' :: rest => some (JsonVal.boolV false, rest)
    | 'n' :: 'u' :: 'l' :: 'l' :: rest => some (JsonVal.null, rest)
    | 'N' :: 'a' :: 'N' :: rest => some (JsonVal.num "NaN", rest)
    | 'I' :: 'n' :: 'f' :: 'i' :: 'n' :: 'i' :: 't' :: 'y' :: rest =>
      some (JsonVal.num "Infinity", rest)
    | '-' :: 'I' :: 'n' :: 'f' :: 'i' :: 'n' :: 'i' :: 't' :: 'y' :: rest =>
      some (JsonVal.num "-Infinity", rest)
    | cs2 =>
      match parseNumber cs2 with
      | some (lex, r) => some (JsonVal.num lex, r)
      | none => none

/-- Comma-separated array elements after `[` (at least one element). -/
def parseElems : Nat → List Char → Option (List JsonVal × List Char)
  | 0, _ => none
  | fuel + 1, cs =>
    match parseValue fuel cs with
    | none => none
    | some (v, rest) =>
      match skipWs rest with
      | ',' :: r2 =>
        match parseElems fuel r2 with
        | some (xs, r3) => some (v :: xs, r3)
        | none => none
      | ']' :: r2 => some ([v], r2)
      | _ => none

/-- Comma-separated object members after the opening brace
(at least one member). -/
def parseMembers : Nat → List Char → Option (List (String × JsonVal) × List Char)
  | 0, _ => none
  | fuel + 1, cs =>
    match skipWs cs with
    | '"' :: rest =>
      match parseStringAux (rest.length + 1) [] rest with
      | none => none
      | some (k, r1) =>
        match skipWs r1 with
        | ':' :: r2 =>
          match parseValue fuel r2 with
          | none => none
          | some (v, r3) =>
            match skipWs r3 with
            | ',' :: r4 =>
              match parseMembers fuel r4 with
              | some (fs, r5) => some ((k, v) :: fs, r5)
              | none => none
            | '\x7d' :: r4 => some ([(k, v)], r4)
            | _ => none
        | _ => none
    | _ => none

end

/-- Model of Python's `json.loads`: parse a complete JSON document, requiring
the whole input (up to surrounding whitespace) to be consumed.  `none` models
a raised `json.JSONDecodeError`. -/
def json_loads (s : String) : Option JsonVal :=
  match parseValue (2 * s.length + 2) s.data with
  | none => none
  | some (v, rest) =>
    match skipWs rest with
    | [] => some v
    | _ :: _ => none

/-- The `path` of a `BigQueryRelation`: database, schema and identifier, each
possibly `None` (modelled as `Option String`). -/
structure RelationPath where
  database : Option String
  schema : Option String
  identifier : Option String
deriving Repr, DecidableEq

/-- A dbt BigQuery relation, reduced to the fields the resolver reads. -/
structure BigQueryRelation where
  path : RelationPath
deriving Repr, DecidableEq

/-- In dbt, `relation.database` is the `database` component of the
relation's path. -/
def BigQueryRelation.database (r : BigQueryRelation) : Option String :=
  r.path.database

/-- In dbt, `relation.schema` is the `schema` component of the
relation's path. -/
def BigQueryRelation.schema (r : BigQueryRelation) : Option String :=
  r.path.schema

/-- In dbt, `relation.identifier` is the `identifier` component of the
relation's path. -/
def BigQueryRelation.identifier (r : BigQueryRelation) : Option String :=
  r.path.identifier

/-- A dbt `BigQueryColumn` as constructed by the resolver:
`BigQueryColumn(name, dtype)`. -/
structure BigQueryColumn where
  column : String
  dtype : String
deriving Repr, DecidableEq

/-- Opaque handle for the `google.cloud.bigquery.Table` object returned by
`self.connections.get_bq_table`. -/
structure BqTable where
  handle : Nat
deriving Repr, DecidableEq

/-- External collaborators of `new_get_columns_in_relation`, as capabilities:
the sidecar HTTP service (request target string to response body), the two
BigQuery-backed methods called on the fallback path, and the
`BigQueryColumn.translate_type` class method. -/
structure SidecarEnv where
  sidecar : String → String
  get_bq_table : Option String → Option String → Option String → Except PyError BqTable
  get_dbt_columns_from_bq_table : BqTable → Except PyError (List BigQueryColumn)
  translate_type : String → String

/-- Observable collaborator calls made during one resolution, in order. -/
inductive Event where
  | sidecarRequest (method : String) (url : String)
  | fallbackCall (database : Option String) (schema : Option String)
      (identifier : Option String)
deriving Repr, DecidableEq

/-- The substitution in lines 38-40 of `dbt_core.py`:
`x if x != None else "None"`. -/
def substNone : Option String → String
  | some v => v
  | none => "None"

/-- The request target built on line 44 of `dbt_core.py` by plain string
concatenation of the substituted components (no URL-encoding). -/
def requestUrl (relation : BigQueryRelation) : String :=
  "/macro?name=get_columns_in_relation&db=" ++ substNone relation.path.database ++
    "&schema=" ++ substNone relation.path.schema ++
    "&table=" ++ substNone relation.path.identifier

/-- Python indexing `v[i]` on a decoded JSON value: list indexing, string
indexing (yielding a one-character string), `KeyError` on dicts (whose keys
here are strings, never ints), `TypeError` otherwise. -/
def pyIndex : JsonVal → Nat → Except PyError JsonVal
  | JsonVal.arr xs, i =>
    match xs.get? i with
    | some v => Except.ok v
    | none => Except.error PyError.indexError
  | JsonVal.str s, i =>
    match s.data.get? i with
    | some c => Except.ok (JsonVal.str (String.mk [c]))
    | none => Except.error PyError.indexError
  | JsonVal.obj _, _ => Except.error PyError.keyError
  | _, _ => Except.error PyError.typeError

/-- Python iteration `for column in data` over a decoded JSON value: lists
yield elements, strings yield one-character strings, dicts yield their keys,
everything else raises `TypeError`. -/
def pyIter : JsonVal → Except PyError (List JsonVal)
  | JsonVal.arr xs => Except.ok xs
  | JsonVal.str s => Except.ok (s.data.map fun c => JsonVal.str (String.mk [c]))
  | JsonVal.obj fs => Except.ok (fs.map fun f => JsonVal.str f.1)
  | _ => Except.error PyError.typeError

/-- The column-name argument of the `BigQueryColumn` constructor.  The
embedding types column names as `String`, so a non-string name (which the
wire format never produces) is collapsed to a `TypeError`. -/
def jsonToName : JsonVal → Except PyError String
  | JsonVal.str s => Except.ok s
  | _ => Except.error PyError.attributeError

/-- `BigQueryColumn.translate_type(column[1])`: the capability is applied to
the string; on a non-string, `dtype.upper()` inside `translate_type` raises
`AttributeError`. -/
def translateJson (translate : String → String) : JsonVal → Except PyError String
  | JsonVal.str s => Except.ok (translate s)
  | _ => Except.error PyError.attributeError

/-- The list comprehension on line 49 of `dbt_core.py`:
`[BigQueryColumn(column[0], BigQueryColumn.translate_type(column[1])) for column in data]`
over an already-materialised item list. -/
def buildColumnsList (translate : String → String) :
    List JsonVal → Except PyError (List BigQueryColumn)
  | [] => Except.ok []
  | item :: rest =>
    match pyIndex item 0 with
    | Except.error e => Except.error e
    | Except.ok name =>
      match pyIndex item 1 with
      | Except.error e => Except.error e
      | Except.ok rawType =>
        match jsonToName name with
        | Except.error e => Except.error e
        | Except.ok nameStr =>
          match translateJson translate rawType with
          | Except.error e => Except.error e
          | Except.ok dtype =>
            match buildColumnsList translate rest with
            | Except.error e => Except.error e
            | Except.ok tail => Except.ok (⟨nameStr, dtype⟩ :: tail)

/-- The list comprehension on line 49 applied to the decoded JSON value
(iterating over it as Python does). -/
def buildColumns (translate : String → String) (data : JsonVal) :
    Except PyError (List BigQueryColumn) :=
  match pyIter data with
  | Except.error e => Except.error e
  | Except.ok items => buildColumnsList translate items

/-- Lines 48-51 of `dbt_core.py`: `data = json.loads(result)` followed by the
comprehension; a parse failure is the raised `json.JSONDecodeError`. -/
def jsonBranch (translate : String → String) (body : String) :
    Except PyError (List BigQueryColumn) :=
  match json_loads body with
  | none => Except.error PyError.jsonDecodeError
  | some data => buildColumns translate data

/-- Lines 54-57 of `dbt_core.py`, the body of the `try`:
`get_bq_table` with the original relation components, then
`_get_dbt_columns_from_bq_table`; errors propagate. -/
def runFallback (env : SidecarEnv) (relation : BigQueryRelation) :
    Except PyError (List BigQueryColumn) :=
  match env.get_bq_table relation.database relation.schema relation.identifier with
  | Except.error e => Except.error e
  | Except.ok t => env.get_dbt_columns_from_bq_table t

/-- Python's exception-class hierarchy, restricted to the class test the
`except` clause on line 59 performs: `ValueError` matches itself and its
subclass `json.JSONDecodeError`; no other modelled exception is a
`ValueError`. -/
def isValueErrorSubclass : PyError → Bool
  | PyError.valueError => true
  | PyError.jsonDecodeError => true
  | _ => false

/-- Lines 59-60 of `dbt_core.py`:
`except (ValueError, google.cloud.exceptions.NotFound): return []`.
Exactly exceptions matching one of those two classes become `[]`; all else
passes through. -/
def catchFallback :
    Except PyError (List BigQueryColumn) → Except PyError (List BigQueryColumn)
  | Except.error PyError.gcloudNotFound => Except.ok []
  | Except.error e =>
    if isValueErrorSubclass e then Except.ok [] else Except.error e
  | Except.ok cols => Except.ok cols

/-- Lines 37-60 of `dbt_core.py`: the resolver itself.  Returns the result
(`Except` models a Python return or raise) together with the ordered trace of
collaborator calls.  The single `conn.request("GET", ...)` is the one
`sidecarRequest` event; a `fallbackCall` event is recorded when the `try`
block runs. -/
def new_get_columns_in_relation (env : SidecarEnv) (relation : BigQueryRelation) :
    Except PyError (List BigQueryColumn) × List Event :=
  let url := requestUrl relation
  let result := env.sidecar url
  if result ≠ "SOURCE" ∧ result ≠ "NOT_FOUND" then
    (jsonBranch env.translate_type result, [Event.sidecarRequest "GET" url])
  else
    (catchFallback (runFallback env relation),
      [Event.sidecarRequest "GET" url,
        Event.fallbackCall relation.database relation.schema relation.identifier])

/-- Recognises the fallback-call events in a trace. -/
def isFallbackCall : Event → Bool
  | Event.fallbackCall _ _ _ => true
  | _ => false

/-- Recognises the sidecar-request events in a trace. -/
def isSidecarRequest : Event → Bool
  | Event.sidecarRequest _ _ => true
  | _ => false

/-- Number of fallback invocations recorded in a trace. -/
def fallbackCount (events : List Event) : Nat :=
  (events.filter isFallbackCall).length

/-- Number of sidecar requests recorded in a trace. -/
def sidecarCount (events : List Event) : Nat :=
  (events.filter isSidecarRequest).length

deriving instance DecidableEq for Except

/-- Concrete type-translation capability used by the witnesses. -/
def translateEx : String → String := fun s => "T:" ++ s

/-- Concrete relation used by the witnesses: database and identifier present,
schema absent. -/
def relEx : BigQueryRelation := ⟨⟨some "proj", none, some "tbl"⟩⟩

/-- Concrete environment builder for the witnesses: the sidecar always
answers `body`, `get_bq_table` returns `bq`, and
`_get_dbt_columns_from_bq_table` returns `cols`. -/
def envWith (body : String) (bq : Except PyError BqTable)
    (cols : Except PyError (List BigQueryColumn)) : SidecarEnv :=
  ⟨fun _ => body, fun _ _ _ => bq, fun _ => cols, translateEx⟩

/-- When the response body is one of the two sentinel strings, the resolver
runs the `try` block: its value is the caught fallback result and its trace
is the sidecar request followed by one fallback call with the original
relation components. -/
theorem fallback_branch_eq (env : SidecarEnv) (r : BigQueryRelation)
    (hbody : env.sidecar (requestUrl r) = "SOURCE" ∨
      env.sidecar (requestUrl r) = "NOT_FOUND") :
    new_get_columns_in_relation env r =
      (catchFallback (runFallback env r),
        [Event.sidecarRequest "GET" (requestUrl r),
          Event.fallbackCall r.database r.schema r.identifier]) := by
  simp only [new_get_columns_in_relation]
  rcases hbody with h | h <;> rw [h] <;> simp

/-- When the response body is neither sentinel, the resolver takes the JSON
branch and makes no fallback call. -/
theorem json_branch_eq (env : SidecarEnv) (r : BigQueryRelation)
    (hne : env.sidecar (requestUrl r) ≠ "SOURCE" ∧
      env.sidecar (requestUrl r) ≠ "NOT_FOUND") :
    new_get_columns_in_relation env r =
      (jsonBranch env.translate_type (env.sidecar (requestUrl r)),
        [Event.sidecarRequest "GET" (requestUrl r)]) := by
  simp only [new_get_columns_in_relation]
  rw [if_pos hne]

/-- The comprehension maps a list of two-element string tuples to columns
pointwise, translating the second component and preserving order. -/
theorem buildColumnsList_pairs (translate : String → String)
    (pairs : List (String × String)) :
    buildColumnsList translate
        (pairs.map fun p => JsonVal.arr [JsonVal.str p.1, JsonVal.str p.2]) =
      Except.ok (pairs.map fun p => ⟨p.1, translate p.2⟩) := by
  induction pairs with
  | nil => rfl
  | cons p ps ih =>
    simp only [List.map_cons, buildColumnsList, pyIndex, jsonToName, translateJson, ih]
    rfl

/-- C1 (claim as stated is false on the code): with the sidecar answering
exactly `SOURCE`, the resolver does not return the empty sequence with zero
fallback calls — line 47 of `dbt_core.py` treats `SOURCE` like `NOT_FOUND`,
so the `try` block runs and the fallback's (non-empty) answer is returned. -/
theorem source_body_claim_cex :
    (envWith "SOURCE" (Except.ok ⟨0⟩) (Except.ok [⟨"c", "INT64"⟩])).sidecar
        (requestUrl relEx) = "SOURCE" ∧
    ¬ ((new_get_columns_in_relation
          (envWith "SOURCE" (Except.ok ⟨0⟩) (Except.ok [⟨"c", "INT64"⟩])) relEx).1 =
        Except.ok ([] : List BigQueryColumn) ∧
      fallbackCount (new_get_columns_in_relation
          (envWith "SOURCE" (Except.ok ⟨0⟩) (Except.ok [⟨"c", "INT64"⟩])) relEx).2 = 0) := by
  decide

/-- C1 (amended): for every resolution call in which the sidecar response
body equals the exact string `SOURCE`, the fallback capability is invoked
exactly once with the original un-substituted TableKey components, and the
resolver's result equals the fallback's result, or the empty sequence when
the fallback fails with a not-found or invalid-key error — exactly the
`NOT_FOUND` behaviour. -/
theorem source_body_falls_back (env : SidecarEnv) (r : BigQueryRelation)
    (hbody : env.sidecar (requestUrl r) = "SOURCE") :
    (new_get_columns_in_relation env r).2 =
      [Event.sidecarRequest "GET" (requestUrl r),
        Event.fallbackCall r.database r.schema r.identifier] ∧
    (∀ cols, runFallback env r = Except.ok cols →
      (new_get_columns_in_relation env r).1 = Except.ok cols) ∧
    (runFallback env r = Except.error PyError.valueError →
      (new_get_columns_in_relation env r).1 = Except.ok []) ∧
    (runFallback env r = Except.error PyError.gcloudNotFound →
      (new_get_columns_in_relation env r).1 = Except.ok []) := by
  have hres := fallback_branch_eq env r (Or.inl hbody)
  refine ⟨by rw [hres], ?_, ?_, ?_⟩
  · intro cols hc; rw [hres]; simp [catchFallback, hc]
  · intro hc; rw [hres]; simp [catchFallback, isValueErrorSubclass, hc]
  · intro hc; rw [hres]; simp [catchFallback, hc]

/-- Witness for C1 (amended) at a concrete environment whose sidecar answers
`SOURCE` and whose fallback produces one column. -/
theorem source_body_falls_back_witness :
    (new_get_columns_in_relation
        (envWith "SOURCE" (Except.ok ⟨0⟩) (Except.ok [⟨"c", "INT64"⟩])) relEx).2 =
      [Event.sidecarRequest "GET" (requestUrl relEx),
        Event.fallbackCall relEx.database relEx.schema relEx.identifier] ∧
    (∀ cols, runFallback
          (envWith "SOURCE" (Except.ok ⟨0⟩) (Except.ok [⟨"c", "INT64"⟩])) relEx =
        Except.ok cols →
      (new_get_columns_in_relation
          (envWith "SOURCE" (Except.ok ⟨0⟩) (Except.ok [⟨"c", "INT64"⟩])) relEx).1 =
        Except.ok cols) ∧
    (runFallback (envWith "SOURCE" (Except.ok ⟨0⟩) (Except.ok [⟨"c", "INT64"⟩])) relEx =
        Except.error PyError.valueError →
      (new_get_columns_in_relation
          (envWith "SOURCE" (Except.ok ⟨0⟩) (Except.ok [⟨"c", "INT64"⟩])) relEx).1 =
        Except.ok []) ∧
    (runFallback (envWith "SOURCE" (Except.ok ⟨0⟩) (Except.ok [⟨"c", "INT64"⟩])) relEx =
        Except.error PyError.gcloudNotFound →
      (new_get_columns_in_relation
          (envWith "SOURCE" (Except.ok ⟨0⟩) (Except.ok [⟨"c", "INT64"⟩])) relEx).1 =
        Except.ok []) :=
  source_body_falls_back
    (envWith "SOURCE" (Except.ok ⟨0⟩) (Except.ok [⟨"c", "INT64"⟩])) relEx rfl

/-- C2: for every resolution call in which the sidecar response body equals
the exact string `NOT_FOUND`, the fallback capability is invoked exactly once
with the original un-substituted TableKey components (the `Option String`
path components, not the `"None"`-substituted strings), and the resolver's
result equals the fallback's result, or the empty sequence when the fallback
fails with a not-found or invalid-key error. -/
theorem not_found_body_uses_fallback_once (env : SidecarEnv) (r : BigQueryRelation)
    (hbody : env.sidecar (requestUrl r) = "NOT_FOUND") :
    (new_get_columns_in_relation env r).2 =
      [Event.sidecarRequest "GET" (requestUrl r),
        Event.fallbackCall r.database r.schema r.identifier] ∧
    (∀ cols, runFallback env r = Except.ok cols →
      (new_get_columns_in_relation env r).1 = Except.ok cols) ∧
    (runFallback env r = Except.error PyError.valueError →
      (new_get_columns_in_relation env r).1 = Except.ok []) ∧
    (runFallback env r = Except.error PyError.gcloudNotFound →
      (new_get_columns_in_relation env r).1 = Except.ok []) := by
  have hres := fallback_branch_eq env r (Or.inr hbody)
  refine ⟨by rw [hres], ?_, ?_, ?_⟩
  · intro cols hc; rw [hres]; simp [catchFallback, hc]
  · intro hc; rw [hres]; simp [catchFallback, isValueErrorSubclass, hc]
  · intro hc; rw [hres]; simp [catchFallback, hc]

/-- Witness for C2 at a concrete environment whose sidecar answers
`NOT_FOUND` and whose fallback produces one column. -/
theorem not_found_body_uses_fallback_once_witness :
    (new_get_columns_in_relation
        (envWith "NOT_FOUND" (Except.ok ⟨0⟩) (Except.ok [⟨"c", "INT64"⟩])) relEx).2 =
      [Event.sidecarRequest "GET" (requestUrl relEx),
        Event.fallbackCall relEx.database relEx.schema relEx.identifier] ∧
    (∀ cols, runFallback
          (envWith "NOT_FOUND" (Except.ok ⟨0⟩) (Except.ok [⟨"c", "INT64"⟩])) relEx =
        Except.ok cols →
      (new_get_columns_in_relation
          (envWith "NOT_FOUND" (Except.ok ⟨0⟩) (Except.ok [⟨"c", "INT64"⟩])) relEx).1 =
        Except.ok cols) ∧
    (runFallback (envWith "NOT_FOUND" (Except.ok ⟨0⟩) (Except.ok [⟨"c", "INT64"⟩])) relEx =
        Except.error PyError.valueError →
      (new_get_columns_in_relation
          (envWith "NOT_FOUND" (Except.ok ⟨0⟩) (Except.ok [⟨"c", "INT64"⟩])) relEx).1 =
        Except.ok []) ∧
    (runFallback (envWith "NOT_FOUND" (Except.ok ⟨0⟩) (Except.ok [⟨"c", "INT64"⟩])) relEx =
        Except.error PyError.gcloudNotFound →
      (new_get_columns_in_relation
          (envWith "NOT_FOUND" (Except.ok ⟨0⟩) (Except.ok [⟨"c", "INT64"⟩])) relEx).1 =
        Except.ok []) :=
  not_found_body_uses_fallback_once
    (envWith "NOT_FOUND" (Except.ok ⟨0⟩) (Except.ok [⟨"c", "INT64"⟩])) relEx rfl

/-- C3: for every TableKey (any subset of components absent), the trace
starts with the single GET request whose target is
`/macro?name=get_columns_in_relation&db=<db>&schema=<schema>&table=<table>`,
built by plain concatenation: absent components become the literal string
`"None"` and present components appear verbatim, with no URL-encoding. -/
theorem request_is_single_get_with_none_substitution (env : SidecarEnv)
    (od os ot : Option String) :
    (new_get_columns_in_relation env ⟨⟨od, os, ot⟩⟩).2.head? =
      some (Event.sidecarRequest "GET"
        ("/macro?name=get_columns_in_relation&db=" ++ substNone od ++
          "&schema=" ++ substNone os ++ "&table=" ++ substNone ot)) ∧
    sidecarCount (new_get_columns_in_relation env ⟨⟨od, os, ot⟩⟩).2 = 1 ∧
    substNone none = "None" ∧ (∀ s : String, substNone (some s) = s) := by
  refine ⟨?_, ?_, rfl, fun s => rfl⟩ <;>
    simp only [new_get_columns_in_relation] <;> split <;> rfl

/-- C4: for every sidecar response body that is not byte-equal to `SOURCE`
or `NOT_FOUND` and parses as a JSON sequence of two-element `[name, rawType]`
tuples, the resolver returns one column per tuple, name verbatim and
`rawType` passed through the type-translation capability, in the same order,
with no fallback call. -/
theorem json_tuple_body_maps_in_order (env : SidecarEnv) (r : BigQueryRelation)
    (pairs : List (String × String))
    (hne : env.sidecar (requestUrl r) ≠ "SOURCE" ∧
      env.sidecar (requestUrl r) ≠ "NOT_FOUND")
    (hparse : json_loads (env.sidecar (requestUrl r)) =
      some (JsonVal.arr
        (pairs.map fun p => JsonVal.arr [JsonVal.str p.1, JsonVal.str p.2]))) :
    (new_get_columns_in_relation env r).1 =
      Except.ok (pairs.map fun p => ⟨p.1, env.translate_type p.2⟩) ∧
    fallbackCount (new_get_columns_in_relation env r).2 = 0 := by
  rw [json_branch_eq env r hne]
  constructor
  · simp [jsonBranch, hparse, buildColumns, pyIter, buildColumnsList_pairs]
  · rfl

/-- Witness for C4 at the spec's example body
`[["id","INT64"],["name","STRING"]]`. -/
theorem json_tuple_body_maps_in_order_witness :
    (new_get_columns_in_relation
        (envWith "[[\"id\",\"INT64\"],[\"name\",\"STRING\"]]"
          (Except.ok ⟨0⟩) (Except.ok [])) relEx).1 =
      Except.ok ([("id", "INT64"), ("name", "STRING")].map
        fun p => ⟨p.1,
          (envWith "[[\"id\",\"INT64\"],[\"name\",\"STRING\"]]"
            (Except.ok ⟨0⟩) (Except.ok [])).translate_type p.2⟩) ∧
    fallbackCount (new_get_columns_in_relation
        (envWith "[[\"id\",\"INT64\"],[\"name\",\"STRING\"]]"
          (Except.ok ⟨0⟩) (Except.ok [])) relEx).2 = 0 :=
  json_tuple_body_maps_in_order
    (envWith "[[\"id\",\"INT64\"],[\"name\",\"STRING\"]]" (Except.ok ⟨0⟩) (Except.ok []))
    relEx [("id", "INT64"), ("name", "STRING")] (by decide) rfl

/-- C5: for every sidecar response body that is neither sentinel nor
parseable JSON, the resolver raises the distinct decode error (the protocol
violation of the spec, `json.JSONDecodeError` in the code) and in particular
never returns the empty column sequence for such a body. -/
theorem unparseable_body_raises_distinct_error (env : SidecarEnv)
    (r : BigQueryRelation)
    (hne : env.sidecar (requestUrl r) ≠ "SOURCE" ∧
      env.sidecar (requestUrl r) ≠ "NOT_FOUND")
    (hparse : json_loads (env.sidecar (requestUrl r)) = none) :
    (new_get_columns_in_relation env r).1 = Except.error PyError.jsonDecodeError ∧
    (new_get_columns_in_relation env r).1 ≠ Except.ok ([] : List BigQueryColumn) := by
  rw [json_branch_eq env r hne]
  refine ⟨?_, ?_⟩ <;> simp [jsonBranch, hparse]

/-- Witness for C5 at the spec's example body `oops`. -/
theorem unparseable_body_raises_distinct_error_witness :
    (new_get_columns_in_relation
        (envWith "oops" (Except.ok ⟨0⟩) (Except.ok [])) relEx).1 =
      Except.error PyError.jsonDecodeError ∧
    (new_get_columns_in_relation
        (envWith "oops" (Except.ok ⟨0⟩) (Except.ok [])) relEx).1 ≠
      Except.ok ([] : List BigQueryColumn) :=
  unparseable_body_raises_distinct_error
    (envWith "oops" (Except.ok ⟨0⟩) (Except.ok [])) relEx (by decide) rfl

/-- C6: whenever a sentinel body sends the resolver into the fallback and
the fallback fails with the not-found error or the invalid-key (value)
error, the resolver returns the empty column sequence; both failure kinds
are treated identically and neither propagates to the caller. -/
theorem fallback_failure_kinds_yield_empty (env : SidecarEnv)
    (r : BigQueryRelation)
    (hbody : env.sidecar (requestUrl r) = "SOURCE" ∨
      env.sidecar (requestUrl r) = "NOT_FOUND")
    (e : PyError) (he : runFallback env r = Except.error e)
    (hkind : e = PyError.valueError ∨ e = PyError.gcloudNotFound) :
    (new_get_columns_in_relation env r).1 = Except.ok [] := by
  rw [fallback_branch_eq env r hbody, he]
  rcases hkind with h | h <;> subst h <;> rfl

/-- Witness for C6 at a concrete environment whose fallback raises the
not-found error. -/
theorem fallback_failure_kinds_yield_empty_witness :
    (new_get_columns_in_relation
        (envWith "NOT_FOUND" (Except.error PyError.gcloudNotFound) (Except.ok []))
        relEx).1 = Except.ok [] :=
  fallback_failure_kinds_yield_empty
    (envWith "NOT_FOUND" (Except.error PyError.gcloudNotFound) (Except.ok []))
    relEx (Or.inr rfl) PyError.gcloudNotFound rfl (Or.inr rfl)

/-- C7: every resolution performs exactly one sidecar request and at most
one fallback call, and the whole trace is either the single request or the
request followed by the fallback call: no retries, no caching, and the
fallback always comes strictly after the sidecar response. -/
theorem one_sidecar_call_then_at_most_one_fallback (env : SidecarEnv)
    (r : BigQueryRelation) :
    sidecarCount (new_get_columns_in_relation env r).2 = 1 ∧
    fallbackCount (new_get_columns_in_relation env r).2 ≤ 1 ∧
    ((new_get_columns_in_relation env r).2 =
        [Event.sidecarRequest "GET" (requestUrl r)] ∨
      (new_get_columns_in_relation env r).2 =
        [Event.sidecarRequest "GET" (requestUrl r),
          Event.fallbackCall r.database r.schema r.identifier]) := by
  simp only [new_get_columns_in_relation]
  split
  · exact ⟨rfl, Nat.zero_le 1, Or.inl rfl⟩
  · exact ⟨rfl, Nat.le_refl 1, Or.inr rfl⟩

/-- C8: the resolver is a deterministic function of the collaborators'
responses and the relation: two calls whose environments answer identically
(sidecar, both fallback methods, type translation) produce identical results
and traces — there is no hidden cross-call state in the embedded code. -/
theorem resolution_deterministic_in_collaborators (env1 env2 : SidecarEnv)
    (r : BigQueryRelation)
    (hs : ∀ u, env1.sidecar u = env2.sidecar u)
    (hb : ∀ d s t, env1.get_bq_table d s t = env2.get_bq_table d s t)
    (hc : ∀ t, env1.get_dbt_columns_from_bq_table t =
      env2.get_dbt_columns_from_bq_table t)
    (ht : ∀ s, env1.translate_type s = env2.translate_type s) :
    new_get_columns_in_relation env1 r = new_get_columns_in_relation env2 r := by
  obtain ⟨s1, b1, c1, t1⟩ := env1
  obtain ⟨s2, b2, c2, t2⟩ := env2
  have e1 : s1 = s2 := funext hs
  have e2 : b1 = b2 := funext fun d => funext fun s => funext fun t => hb d s t
  have e3 : c1 = c2 := funext hc
  have e4 : t1 = t2 := funext ht
  subst e1; subst e2; subst e3; subst e4
  rfl

/-- Witness for C8: two calls against the same concrete collaborators give
the same result. -/
theorem resolution_deterministic_witness :
    new_get_columns_in_relation (envWith "oops" (Except.ok ⟨0⟩) (Except.ok [])) relEx =
      new_get_columns_in_relation (envWith "oops" (Except.ok ⟨0⟩) (Except.ok [])) relEx :=
  resolution_deterministic_in_collaborators
    (envWith "oops" (Except.ok ⟨0⟩) (Except.ok []))
    (envWith "oops" (Except.ok ⟨0⟩) (Except.ok [])) relEx
    (fun _ => rfl) (fun _ _ _ => rfl) (fun _ => rfl) (fun _ => rfl)

/-- C9: a response body of exactly `[]` (valid JSON, not a sentinel) yields
the empty column sequence with no fallback call — indistinguishable in the
result from the empty sequence a deferral produces. -/
theorem empty_json_array_yields_empty_without_fallback (env : SidecarEnv)
    (r : BigQueryRelation)
    (hbody : env.sidecar (requestUrl r) = "[]") :
    (new_get_columns_in_relation env r).1 = Except.ok ([] : List BigQueryColumn) ∧
    fallbackCount (new_get_columns_in_relation env r).2 = 0 := by
  have hne : env.sidecar (requestUrl r) ≠ "SOURCE" ∧
      env.sidecar (requestUrl r) ≠ "NOT_FOUND" := by
    rw [hbody]; exact ⟨by decide, by decide⟩
  rw [json_branch_eq env r hne]
  refine ⟨?_, rfl⟩
  rw [hbody]
  rfl

/-- Witness for C9 at a concrete environment answering `[]`. -/
theorem empty_json_array_yields_empty_without_fallback_witness :
    (new_get_columns_in_relation
        (envWith "[]" (Except.ok ⟨0⟩) (Except.ok [⟨"c", "INT64"⟩])) relEx).1 =
      Except.ok ([] : List BigQueryColumn) ∧
    fallbackCount (new_get_columns_in_relation
        (envWith "[]" (Except.ok ⟨0⟩) (Except.ok [⟨"c", "INT64"⟩])) relEx).2 = 0 :=
  empty_json_array_yields_empty_without_fallback
    (envWith "[]" (Except.ok ⟨0⟩) (Except.ok [⟨"c", "INT64"⟩])) relEx rfl

/-- C10: when the fallback fails with an error that is neither of the
`except` clause's two classes — not a `ValueError` (nor a subclass of it,
such as `json.JSONDecodeError`) and not the not-found error — that error
propagates to the caller unchanged; the conversion to an empty sequence
applies to exactly those two failure kinds. -/
theorem other_fallback_errors_propagate (env : SidecarEnv)
    (r : BigQueryRelation)
    (hbody : env.sidecar (requestUrl r) = "SOURCE" ∨
      env.sidecar (requestUrl r) = "NOT_FOUND")
    (e : PyError) (he : runFallback env r = Except.error e)
    (hv : isValueErrorSubclass e = false) (hnf : e ≠ PyError.gcloudNotFound) :
    (new_get_columns_in_relation env r).1 = Except.error e := by
  rw [fallback_branch_eq env r hbody, he]
  cases e <;>
    first
      | rfl
      | exact absurd rfl hnf
      | simp [isValueErrorSubclass] at hv

/-- Witness for C10 at a concrete environment whose fallback raises an
unrelated error. -/
theorem other_fallback_errors_propagate_witness :
    (new_get_columns_in_relation
        (envWith "NOT_FOUND" (Except.error (PyError.otherError "boom")) (Except.ok []))
        relEx).1 = Except.error (PyError.otherError "boom") :=
  other_fallback_errors_propagate
    (envWith "NOT_FOUND" (Except.error (PyError.otherError "boom")) (Except.ok []))
    relEx (Or.inr rfl) (PyError.otherError "boom") rfl rfl (by decide)
